import Mathlib

/-!
Verification of the shard-tailing core of the `kin` command-line tool
(`src/cmd/tail.go`), shallowly embedded in Lean 4.

Modelling conventions:
  * Instants and durations (`time.Time`, `time.Duration`) are integers
    (nanoseconds); "now" is an explicit parameter.
  * Go standard-library functions that the code calls but that are not part
    of the repository (`time.Parse` with the RFC3339 layout,
    `time.ParseDuration`, `json.Unmarshal`) are taken as function
    parameters; facts about them that a claim needs are hypotheses.
  * The Kinesis client is a record of response functions; a goroutine's
    side effects (stderr logging, channel sends, sleeps) are reified as a
    trace of `Action`s; the unbounded `for` loop is fuel-indexed.
  * Go `nil` pointers become `Option`; a function returning `(T, error)`
    becomes `Except String T`.
-/

namespace Kin

/-- A decoded JSON value, the model of the go `interface{}` that
`json.Unmarshal` fills in (`var data interface{}` in `tailStreamShard`). -/
inductive JsonVal : Type
  | null
  | bool (b : Bool)
  | num (n : Int)
  | str (s : String)
  | arr (elems : List JsonVal)
  | obj (fields : List (String × JsonVal))

/-- The payload carried by an emitted record: either the decoded JSON value,
or, when decoding failed, the original raw bytes (`data = record.Data`). -/
inductive Payload : Type
  | json (v : JsonVal)
  | raw (bytes : List Nat)

/-- The record-decoding step of `tailStreamShard` (tail.go:161-169):
`json.Unmarshal(record.Data, &data)`; on error, fall back to the raw bytes.
`unmarshal` models `json.Unmarshal` (Go standard library, not repo code). -/
def decodeRecordData (unmarshal : List Nat → Option JsonVal)
    (bytes : List Nat) : Payload :=
  match unmarshal bytes with
  | some v => Payload.json v
  | none => Payload.raw bytes

/-- Model of `TailOptions` (tail.go:17-19): `AtTimestamp *time.Time`. -/
structure TailOptions where
  atTimestamp : Option Int
  deriving DecidableEq, Repr

/-- The error outcome of `parseTailOpts`: either `time.Parse` failed on the
`--timestamp` string or `time.ParseDuration` failed on the `--from` string. -/
inductive TailParseError : Type
  | timestampParse
  | durationParse
  deriving DecidableEq, Repr

/-- Model of `parseTailOpts` (tail.go:85-120).  Reads the `--timestamp` flag; if it is
non-empty, parses it with `time.Parse(time.RFC3339, ·)`, failing on a parse
error.  If no timestamp was set, reads the `--from` flag, parses it with
`time.ParseDuration` (failing on a parse error) and uses `now - from`.
`parseRFC3339` and `parseDuration` model the Go standard-library parsers. -/
def parseTailOpts (parseRFC3339 : String → Option Int)
    (parseDuration : String → Option Int) (now : Int)
    (timestampFlag fromFlag : String) : Except TailParseError TailOptions :=
  if timestampFlag = "" then
    match parseDuration fromFlag with
    | some d => Except.ok { atTimestamp := some (now - d) }
    | none => Except.error TailParseError.durationParse
  else
    match parseRFC3339 timestampFlag with
    | some t => Except.ok { atTimestamp := some t }
    | none => Except.error TailParseError.timestampParse

/-- Model of `types.ShardIteratorType`: the iterator kinds this program uses. -/
inductive ShardIteratorType : Type
  | atTimestamp
  | trimHorizon
  deriving DecidableEq, Repr

/-- Model of `kinesis.GetShardIteratorInput` as populated by `getShardIterator`
(tail.go:205-210). -/
structure GetShardIteratorInput where
  shardId : String
  shardIteratorType : ShardIteratorType
  streamName : String
  timestamp : Option Int
  deriving DecidableEq, Repr

/-- The request that `getShardIterator` (tail.go:193-211) builds: iterator
type `AtTimestamp` when `options.AtTimestamp != nil`, `TrimHorizon`
otherwise; the `Timestamp` field is always `options.AtTimestamp`. -/
def getShardIteratorInput (streamName shardId : String)
    (options : TailOptions) : GetShardIteratorInput :=
  { shardId := shardId
    shardIteratorType :=
      match options.atTimestamp with
      | some _ => ShardIteratorType.atTimestamp
      | none => ShardIteratorType.trimHorizon
    streamName := streamName
    timestamp := options.atTimestamp }

/-- A raw record as returned by the service inside `GetRecords` output
(`types.Record`): partition key, sequence number, approximate arrival
timestamp, encryption indicator, payload bytes. -/
structure RawRecord where
  partitionKey : String
  sequenceNumber : String
  approximateArrivalTimestamp : Int
  encryptionType : String
  data : List Nat
  deriving DecidableEq, Repr

/-- Model of `kinesis.GetRecordsOutput`: the fetched batch and the (possibly absent)
next iterator token. -/
structure GetRecordsResult where
  records : List RawRecord
  nextShardIterator : Option String
  deriving DecidableEq, Repr

/-- A shard as returned by `ListShards` (`types.Shard`), carrying its id. -/
structure Shard where
  shardId : String
  deriving DecidableEq, Repr

/-- The Kinesis client (`*kinesis.Client`) as a record of response
functions; errors are strings. -/
structure KinesisClient where
  listShardsCall : String → Except String (List Shard)
  getShardIteratorCall : GetShardIteratorInput → Except String String
  getRecordsCall : String → Except String GetRecordsResult

/-- Model of `RecordOutput` (tail.go:21-28). -/
structure RecordOutput where
  shardId : String
  partitionKey : String
  sequenceNumber : String
  approximateArrivalTimestamp : Int
  encryptionType : String
  data : Payload

/-- Model of `getShardIterator` (tail.go:193-218): build the input and call the
client, passing errors through. -/
def getShardIterator (client : KinesisClient) (streamName shardId : String)
    (options : TailOptions) : Except String String :=
  client.getShardIteratorCall (getShardIteratorInput streamName shardId options)

/-- Model of `getShardIds` (tail.go:122-135): call `ListShards`; on error return it
unchanged; otherwise collect the `ShardId` of every shard, in order. -/
def getShardIds (client : KinesisClient) (streamName : String) :
    Except String (List String) :=
  match client.listShardsCall streamName with
  | Except.error e => Except.error e
  | Except.ok output => Except.ok (output.map Shard.shardId)

/-- One observable step of a shard-reader goroutine: a `GetRecords` call
using an iterator token, an event sent on the output channel, a
`time.Sleep` (seconds), or a line printed to stderr. -/
inductive Action : Type
  | fetch (iterator : String)
  | emit (record : RecordOutput)
  | sleep (seconds : Nat)
  | logError (e : String)

/-- How a shard-reader loop ended: the shard closed (absent next token,
`break` at tail.go:184), the reader hit an error and returned it, or the
modelling fuel ran out (the real loop would keep polling). -/
inductive LoopOutcome : Type
  | closed
  | failed (e : String)
  | fuelExhausted
  deriving DecidableEq, Repr

/-- Construction of the `RecordOutput` emitted for one raw record
(tail.go:171-179). -/
def mkRecordOutput (unmarshal : List Nat → Option JsonVal)
    (shardId : String) (record : RawRecord) : RecordOutput :=
  { shardId := shardId
    partitionKey := record.partitionKey
    sequenceNumber := record.sequenceNumber
    approximateArrivalTimestamp := record.approximateArrivalTimestamp
    encryptionType := record.encryptionType
    data := decodeRecordData unmarshal record.data }

/-- The `for` loop of `tailStreamShard` (tail.go:151-188), fuel-indexed.
Each iteration: `GetRecords` with the current token (on error, log to
stderr and return the error); emit one `RecordOutput` per record in order;
replace the token with `NextShardIterator`; `break` if it is `nil`;
otherwise `time.Sleep(2 * time.Second)` and loop. -/
def pollLoop (unmarshal : List Nat → Option JsonVal) (client : KinesisClient)
    (shardId : String) : Nat → String → List Action × LoopOutcome
  | 0, _ => ([], LoopOutcome.fuelExhausted)
  | fuel + 1, iterator =>
    match client.getRecordsCall iterator with
    | Except.error e =>
        ([Action.fetch iterator, Action.logError e], LoopOutcome.failed e)
    | Except.ok res =>
        let emits := res.records.map
          (fun r => Action.emit (mkRecordOutput unmarshal shardId r))
        match res.nextShardIterator with
        | none => (Action.fetch iterator :: emits, LoopOutcome.closed)
        | some next =>
            let rest := pollLoop unmarshal client shardId fuel next
            (Action.fetch iterator :: emits ++ Action.sleep 2 :: rest.1,
             rest.2)

/-- Model of `tailStreamShard` (tail.go:137-191): obtain the initial iterator token
(on failure, log the error to stderr and return it without fetching
anything), then run the polling loop. -/
def tailStreamShard (unmarshal : List Nat → Option JsonVal)
    (client : KinesisClient) (streamName shardId : String)
    (options : TailOptions) (fuel : Nat) : List Action × LoopOutcome :=
  match getShardIterator client streamName shardId options with
  | Except.error e => ([Action.logError e], LoopOutcome.failed e)
  | Except.ok iterator => pollLoop unmarshal client shardId fuel iterator

/-- The shard fan-out of `runTailCmd` (tail.go:63-77): with an explicit
`--shard` id, spawn one reader for it; otherwise enumerate the shards
(exiting with the error when `getShardIds` fails, tail.go:68-72) and spawn
one reader per shard id.  Each spawned reader is modelled by its own trace,
keyed by shard id; `Except.error` models printing the error and
`os.Exit(1)`. -/
def runTailReaders (unmarshal : List Nat → Option JsonVal)
    (client : KinesisClient) (streamName shardIdFlag : String)
    (options : TailOptions) (fuel : Nat) :
    Except String (List (String × (List Action × LoopOutcome))) :=
  if shardIdFlag = "" then
    match getShardIds client streamName with
    | Except.error e => Except.error e
    | Except.ok shardIds =>
        Except.ok (shardIds.map (fun sid =>
          (sid, tailStreamShard unmarshal client streamName sid options fuel)))
  else
    Except.ok [(shardIdFlag,
      tailStreamShard unmarshal client streamName shardIdFlag options fuel)]

/-- The record events a trace sends on the output channel, in order. -/
def emittedRecords : List Action → List RecordOutput
  | [] => []
  | Action.emit r :: rest => r :: emittedRecords rest
  | _ :: rest => emittedRecords rest

/-!
Concrete instantiations used by the witness theorems below.  `unmarshalW`
and `encodeW` stand in for `json.Unmarshal` / `json.Marshal` on a single
value (the JSON text `null`, bytes 110 117 108 108); `parseRFC3339W` and
`parseDurationW` stand in for `time.Parse(time.RFC3339, ·)` and
`time.ParseDuration` on a single valid input each.  Note that
`parseDurationW "" = none`, as in Go, where `time.ParseDuration("")`
returns an error.
-/

def unmarshalW : List Nat → Option JsonVal :=
  fun b => if b = [110, 117, 108, 108] then some JsonVal.null else none

def encodeW : JsonVal → List Nat :=
  fun _ => [110, 117, 108, 108]

def parseRFC3339W : String → Option Int :=
  fun s => if s = "2021-09-10T11:12:13Z" then some 1631272333 else none

def parseDurationW : String → Option Int :=
  fun s => if s = "1h" then some 3600 else none

/-- A concrete raw record whose payload is valid JSON (`null`). -/
def rec1 : RawRecord :=
  { partitionKey := "pk1"
    sequenceNumber := "sq1"
    approximateArrivalTimestamp := 5
    encryptionType := "NONE"
    data := [110, 117, 108, 108] }

/-- A concrete raw record whose payload is not valid JSON. -/
def rec2 : RawRecord :=
  { partitionKey := "pk2"
    sequenceNumber := "sq2"
    approximateArrivalTimestamp := 6
    encryptionType := "KMS"
    data := [1, 2, 3] }

/-- A concrete client: two shards; shard A yields one batch of two records
and then closes; shard B fails on its first fetch. -/
def clientW : KinesisClient :=
  { listShardsCall := fun _ => Except.ok [⟨"shardA"⟩, ⟨"shardB"⟩]
    getShardIteratorCall := fun input => Except.ok (input.shardId ++ "-it0")
    getRecordsCall := fun it =>
      if it = "shardA-it0" then
        Except.ok { records := [rec1, rec2], nextShardIterator := some "shardA-it1" }
      else if it = "shardA-it1" then
        Except.ok { records := [], nextShardIterator := none }
      else if it = "shardB-it0" then
        Except.error "boom"
      else
        Except.ok { records := [], nextShardIterator := none } }

/-- A concrete client whose `GetShardIterator` call always fails. -/
def clientItFailW : KinesisClient :=
  { clientW with getShardIteratorCall := fun _ => Except.error "denied" }

/-- A concrete client whose `ListShards` call fails. -/
def clientListFailW : KinesisClient :=
  { clientW with listShardsCall := fun _ => Except.error "list failed" }

/-- Emitted records of a trace built from per-record emits: one output per
raw record, in the same order. -/
theorem emittedRecords_map_emit (f : RawRecord → RecordOutput)
    (l : List RawRecord) :
    emittedRecords (l.map fun r => Action.emit (f r)) = l.map f := by
  induction l with
  | nil => rfl
  | cons a t ih => simp [emittedRecords, ih]

/-- C1 (code bug): the claim says that with neither `--timestamp` nor
`--from` provided, option resolution succeeds with no timestamp and the
iterator request uses "trim horizon".  On the code, when both flag strings
are empty, `parseTailOpts` reaches `time.ParseDuration("")`, which fails
(in Go, `ParseDuration("")` returns an error — hypothesis `hd`), so
resolution returns a parse error and `runTailCmd` exits; the trim-horizon
branch of `getShardIterator` is never reached from this path. -/
theorem c1_no_flags_resolution_fails
    (parseRFC3339 parseDuration : String → Option Int) (now : Int)
    (hd : parseDuration "" = none) :
    parseTailOpts parseRFC3339 parseDuration now "" "" =
      Except.error TailParseError.durationParse := by
  simp [parseTailOpts, hd]

/-- C1 witness: the failure at the concrete stand-in parsers. -/
theorem c1_no_flags_resolution_fails_witness :
    parseTailOpts parseRFC3339W parseDurationW 0 "" "" =
      Except.error TailParseError.durationParse :=
  c1_no_flags_resolution_fails parseRFC3339W parseDurationW 0 rfl

/-- C2: the request built by `getShardIterator` uses the "at timestamp"
kind and passes the timestamp when `TailOptions.AtTimestamp` is set, and
the "trim horizon" kind (with no timestamp) otherwise. -/
theorem c2_iterator_kind (streamName shardId : String)
    (options : TailOptions) (t : Int) :
    (options.atTimestamp = some t →
      (getShardIteratorInput streamName shardId options).shardIteratorType =
          ShardIteratorType.atTimestamp ∧
        (getShardIteratorInput streamName shardId options).timestamp =
          some t) ∧
    (options.atTimestamp = none →
      (getShardIteratorInput streamName shardId options).shardIteratorType =
          ShardIteratorType.trimHorizon ∧
        (getShardIteratorInput streamName shardId options).timestamp =
          none) := by
  constructor
  · intro ht
    simp [getShardIteratorInput, ht]
  · intro ht
    simp [getShardIteratorInput, ht]

/-- C2 witness: both branches at concrete options. -/
theorem c2_iterator_kind_witness :
    ((getShardIteratorInput "s" "sh" { atTimestamp := some 7 }).shardIteratorType =
        ShardIteratorType.atTimestamp ∧
      (getShardIteratorInput "s" "sh" { atTimestamp := some 7 }).timestamp =
        some 7) ∧
    ((getShardIteratorInput "s" "sh" { atTimestamp := none }).shardIteratorType =
        ShardIteratorType.trimHorizon ∧
      (getShardIteratorInput "s" "sh" { atTimestamp := none }).timestamp =
        none) :=
  ⟨(c2_iterator_kind "s" "sh" { atTimestamp := some 7 } 7).1 rfl,
   (c2_iterator_kind "s" "sh" { atTimestamp := none } 7).2 rfl⟩

/-- C3: the record decoder is total by construction (it returns a
`Payload`, never an error) and is a round-trip: when the unmarshaller
(modelling `json.Unmarshal`) inverts the encoder on a value `v`, decoding
the encoding of `v` yields the JSON payload `v`; and on any byte sequence
the unmarshaller rejects, decoding returns exactly the original bytes. -/
theorem c3_decoder_roundtrip (unmarshal : List Nat → Option JsonVal)
    (encode : JsonVal → List Nat) (v : JsonVal) (b : List Nat)
    (hrt : unmarshal (encode v) = some v) (hb : unmarshal b = none) :
    decodeRecordData unmarshal (encode v) = Payload.json v ∧
    decodeRecordData unmarshal b = Payload.raw b := by
  constructor
  · simp [decodeRecordData, hrt]
  · simp [decodeRecordData, hb]

/-- C3 witness: round-trip of the JSON value `null` and fallback on the
non-JSON bytes `[1, 2, 3]` for the concrete stand-in unmarshaller. -/
theorem c3_decoder_roundtrip_witness :
    decodeRecordData unmarshalW (encodeW JsonVal.null) =
        Payload.json JsonVal.null ∧
    decodeRecordData unmarshalW [1, 2, 3] = Payload.raw [1, 2, 3] :=
  c3_decoder_roundtrip unmarshalW encodeW JsonVal.null [1, 2, 3] rfl rfl

/-- C8: with a non-empty `--timestamp` string, `parseTailOpts` resolves to
exactly the instant the RFC3339 parser returns, fails with a parse error
when the parser rejects the string, and never consults the `--from` flag,
the duration parser or the clock (the result is invariant under changing
all three). -/
theorem c8_timestamp_priority
    (parseRFC3339 parseDuration parseDuration' : String → Option Int)
    (now now' t : Int) (ts fromFlag fromFlag' : String) (hne : ts ≠ "") :
    (parseRFC3339 ts = some t →
      parseTailOpts parseRFC3339 parseDuration now ts fromFlag =
        Except.ok { atTimestamp := some t }) ∧
    (parseRFC3339 ts = none →
      parseTailOpts parseRFC3339 parseDuration now ts fromFlag =
        Except.error TailParseError.timestampParse) ∧
    parseTailOpts parseRFC3339 parseDuration now ts fromFlag =
      parseTailOpts parseRFC3339 parseDuration' now' ts fromFlag' := by
  refine ⟨fun ht => ?_, fun ht => ?_, ?_⟩
  · simp [parseTailOpts, hne, ht]
  · simp [parseTailOpts, hne, ht]
  · simp [parseTailOpts, hne]

/-- C8 witness: the valid-timestamp branch, the malformed-timestamp branch,
and insensitivity to the duration parser, clock and `--from` string. -/
theorem c8_timestamp_priority_witness :
    parseTailOpts parseRFC3339W parseDurationW 0 "2021-09-10T11:12:13Z" "1h" =
        Except.ok { atTimestamp := some 1631272333 } ∧
    parseTailOpts parseRFC3339W parseDurationW 0 "bogus" "1h" =
        Except.error TailParseError.timestampParse ∧
    parseTailOpts parseRFC3339W parseDurationW 0 "2021-09-10T11:12:13Z" "1h" =
      parseTailOpts parseRFC3339W (fun _ => none) 99
        "2021-09-10T11:12:13Z" "zzz" :=
  ⟨(c8_timestamp_priority parseRFC3339W parseDurationW parseDurationW 0 0
      1631272333 "2021-09-10T11:12:13Z" "1h" "1h" (by decide)).1 rfl,
   (c8_timestamp_priority parseRFC3339W parseDurationW parseDurationW 0 0
      1631272333 "bogus" "1h" "1h" (by decide)).2.1 rfl,
   (c8_timestamp_priority parseRFC3339W parseDurationW (fun _ => none) 0 99
      1631272333 "2021-09-10T11:12:13Z" "1h" "zzz" (by decide)).2.2⟩

/-- C9: with no `--timestamp` and a `--from` string, `parseTailOpts`
resolves to `now - duration` when the duration parser accepts the string,
and fails with a parse error when it rejects it. -/
theorem c9_relative_offset (parseRFC3339 parseDuration : String → Option Int)
    (now d : Int) (fromFlag : String) :
    (parseDuration fromFlag = some d →
      parseTailOpts parseRFC3339 parseDuration now "" fromFlag =
        Except.ok { atTimestamp := some (now - d) }) ∧
    (parseDuration fromFlag = none →
      parseTailOpts parseRFC3339 parseDuration now "" fromFlag =
        Except.error TailParseError.durationParse) := by
  refine ⟨fun hd => ?_, fun hd => ?_⟩
  · simp [parseTailOpts, hd]
  · simp [parseTailOpts, hd]

/-- C9 witness: a valid duration (`"1h"`, 3600 seconds before `now = 5000`)
and a malformed one. -/
theorem c9_relative_offset_witness :
    parseTailOpts parseRFC3339W parseDurationW 5000 "" "1h" =
        Except.ok { atTimestamp := some (5000 - 3600) } ∧
    parseTailOpts parseRFC3339W parseDurationW 5000 "" "zzz" =
        Except.error TailParseError.durationParse :=
  ⟨(c9_relative_offset parseRFC3339W parseDurationW 5000 3600 "1h").1 rfl,
   (c9_relative_offset parseRFC3339W parseDurationW 5000 3600 "zzz").2 rfl⟩

/-- C10: whenever `parseTailOpts` returns without error, the returned
options carry a set `AtTimestamp` — every success path assigns it — so
every iterator request built from such options uses the "at timestamp"
kind and the "trim horizon" branch of `getShardIterator` is unreachable
from the tail command path. -/
theorem c10_at_timestamp_always
    (parseRFC3339 parseDuration : String → Option Int) (now : Int)
    (ts fromFlag streamName shardId : String) (opts : TailOptions)
    (h : parseTailOpts parseRFC3339 parseDuration now ts fromFlag =
      Except.ok opts) :
    opts.atTimestamp ≠ none ∧
    (getShardIteratorInput streamName shardId opts).shardIteratorType =
      ShardIteratorType.atTimestamp := by
  obtain ⟨t, ht⟩ : ∃ t, opts.atTimestamp = some t := by
    unfold parseTailOpts at h
    split at h
    · cases hd : parseDuration fromFlag with
      | none => rw [hd] at h; cases h
      | some d =>
          rw [hd] at h
          cases h
          exact ⟨now - d, rfl⟩
    · cases hp : parseRFC3339 ts with
      | none => rw [hp] at h; cases h
      | some t =>
          rw [hp] at h
          cases h
          exact ⟨t, rfl⟩
  exact ⟨by simp [ht], by simp [getShardIteratorInput, ht]⟩

/-- C10 witness: a successful resolution via `--from` yields at-timestamp
options and an at-timestamp iterator request. -/
theorem c10_at_timestamp_always_witness :
    TailOptions.atTimestamp { atTimestamp := some (0 - 3600) } ≠ none ∧
    (getShardIteratorInput "s" "sh"
        { atTimestamp := some (0 - 3600) }).shardIteratorType =
      ShardIteratorType.atTimestamp :=
  c10_at_timestamp_always parseRFC3339W parseDurationW 0 "" "1h" "s" "sh"
    { atTimestamp := some (0 - 3600) } rfl

/-- Traces built by `emittedRecords` ignore fetch actions. -/
theorem emittedRecords_fetch (it : String) (l : List Action) :
    emittedRecords (Action.fetch it :: l) = emittedRecords l := rfl

/-- Traces built by `emittedRecords` ignore sleep actions. -/
theorem emittedRecords_sleep (n : Nat) (l : List Action) :
    emittedRecords (Action.sleep n :: l) = emittedRecords l := rfl

/-- Function `emittedRecords` distributes over trace concatenation. -/
theorem emittedRecords_append (l₁ l₂ : List Action) :
    emittedRecords (l₁ ++ l₂) = emittedRecords l₁ ++ emittedRecords l₂ := by
  induction l₁ with
  | nil => rfl
  | cons a t ih => cases a <;> simp [emittedRecords, ih]

/-- C4: one iteration of the polling loop after a successful fetch.  When
the returned next token is present, the iterator token is replaced by it
(the continuation is the loop restarted at `next`) and a fixed 2-second
sleep separates this iteration from the next fetch; when the next token is
absent, the loop terminates normally (`closed`) and the trace ends — the
reader never resumes. -/
theorem c4_loop_iteration (unmarshal : List Nat → Option JsonVal)
    (client : KinesisClient) (shardId iterator : String) (fuel : Nat)
    (res : GetRecordsResult)
    (hfetch : client.getRecordsCall iterator = Except.ok res) :
    (∀ next, res.nextShardIterator = some next →
      pollLoop unmarshal client shardId (fuel + 1) iterator =
        (Action.fetch iterator ::
          (res.records.map fun r =>
            Action.emit (mkRecordOutput unmarshal shardId r)) ++
          Action.sleep 2 :: (pollLoop unmarshal client shardId fuel next).1,
         (pollLoop unmarshal client shardId fuel next).2)) ∧
    (res.nextShardIterator = none →
      pollLoop unmarshal client shardId (fuel + 1) iterator =
        (Action.fetch iterator ::
          (res.records.map fun r =>
            Action.emit (mkRecordOutput unmarshal shardId r)),
         LoopOutcome.closed)) := by
  constructor
  · intro next hn
    simp [pollLoop, hfetch, hn]
  · intro hn
    simp [pollLoop, hfetch, hn]

/-- C4 witness: on the concrete client, shard A's first iteration continues
at the returned token after a 2-second sleep, and its second iteration
(absent next token) terminates the loop normally. -/
theorem c4_loop_iteration_witness :
    pollLoop unmarshalW clientW "shardA" (1 + 1) "shardA-it0" =
      (Action.fetch "shardA-it0" ::
        ([rec1, rec2].map fun r =>
          Action.emit (mkRecordOutput unmarshalW "shardA" r)) ++
        Action.sleep 2 ::
          (pollLoop unmarshalW clientW "shardA" 1 "shardA-it1").1,
       (pollLoop unmarshalW clientW "shardA" 1 "shardA-it1").2) ∧
    pollLoop unmarshalW clientW "shardA" (0 + 1) "shardA-it1" =
      (Action.fetch "shardA-it1" ::
        (([] : List RawRecord).map fun r =>
          Action.emit (mkRecordOutput unmarshalW "shardA" r)),
       LoopOutcome.closed) :=
  ⟨(c4_loop_iteration unmarshalW clientW "shardA" "shardA-it0" 1
      { records := [rec1, rec2], nextShardIterator := some "shardA-it1" }
      rfl).1 "shardA-it1" rfl,
   (c4_loop_iteration unmarshalW clientW "shardA" "shardA-it1" 0
      { records := [], nextShardIterator := none } rfl).2 rfl⟩

/-- C5: in every successful loop iteration the reader emits exactly one
record event per raw record of the batch, in the service's order (the
events sent during the iteration are precisely the image of the batch
under `mkRecordOutput`, followed by whatever later iterations emit), and
each event carries the shard id, partition key, sequence number, arrival
timestamp, encryption indicator and decoded payload of its raw record. -/
theorem c5_batch_emission (unmarshal : List Nat → Option JsonVal)
    (client : KinesisClient) (shardId iterator : String) (fuel : Nat)
    (res : GetRecordsResult) (r : RawRecord)
    (hfetch : client.getRecordsCall iterator = Except.ok res) :
    emittedRecords (pollLoop unmarshal client shardId (fuel + 1) iterator).1 =
      res.records.map (mkRecordOutput unmarshal shardId) ++
        (match res.nextShardIterator with
         | none => []
         | some next =>
             emittedRecords (pollLoop unmarshal client shardId fuel next).1) ∧
    mkRecordOutput unmarshal shardId r =
      { shardId := shardId
        partitionKey := r.partitionKey
        sequenceNumber := r.sequenceNumber
        approximateArrivalTimestamp := r.approximateArrivalTimestamp
        encryptionType := r.encryptionType
        data := decodeRecordData unmarshal r.data } := by
  refine ⟨?_, rfl⟩
  cases hn : res.nextShardIterator with
  | none =>
      simp [pollLoop, hfetch, hn, emittedRecords_fetch,
        emittedRecords_map_emit]
  | some next =>
      simp [pollLoop, hfetch, hn, emittedRecords_fetch, emittedRecords_append,
        emittedRecords_sleep, emittedRecords_map_emit]

/-- C5 witness: shard A's first batch on the concrete client emits exactly
its two records, in order, with the fields carried over. -/
theorem c5_batch_emission_witness :
    emittedRecords
        (pollLoop unmarshalW clientW "shardA" (1 + 1) "shardA-it0").1 =
      [rec1, rec2].map (mkRecordOutput unmarshalW "shardA") ++
        emittedRecords
          (pollLoop unmarshalW clientW "shardA" 1 "shardA-it1").1 ∧
    mkRecordOutput unmarshalW "shardA" rec1 =
      { shardId := "shardA"
        partitionKey := rec1.partitionKey
        sequenceNumber := rec1.sequenceNumber
        approximateArrivalTimestamp := rec1.approximateArrivalTimestamp
        encryptionType := rec1.encryptionType
        data := decodeRecordData unmarshalW rec1.data } :=
  c5_batch_emission unmarshalW clientW "shardA" "shardA-it0" 1
    { records := [rec1, rec2], nextShardIterator := some "shardA-it1" }
    rec1 rfl

/-- C6: a failure to obtain the initial iterator token yields only a logged
error and a failed outcome with no emitted events; a fetch failure logs the
error and terminates the loop immediately (no retry, no further actions);
and the orchestrator's result is the independent per-shard map of
`tailStreamShard`, so one shard's failure leaves every other shard's entry
exactly the trace its own calls produce. -/
theorem c6_shard_failure_isolation (unmarshal : List Nat → Option JsonVal)
    (client : KinesisClient) (streamName shardId iterator : String)
    (options : TailOptions) (fuel : Nat) (e : String)
    (shardIds : List String) :
    (getShardIterator client streamName shardId options = Except.error e →
      tailStreamShard unmarshal client streamName shardId options fuel =
        ([Action.logError e], LoopOutcome.failed e)) ∧
    (client.getRecordsCall iterator = Except.error e →
      pollLoop unmarshal client shardId (fuel + 1) iterator =
        ([Action.fetch iterator, Action.logError e], LoopOutcome.failed e)) ∧
    (getShardIds client streamName = Except.ok shardIds →
      runTailReaders unmarshal client streamName "" options fuel =
        Except.ok (shardIds.map fun sid =>
          (sid,
            tailStreamShard unmarshal client streamName sid options fuel))) := by
  refine ⟨fun h => ?_, fun h => ?_, fun h => ?_⟩
  · simp [tailStreamShard, h]
  · simp [pollLoop, h]
  · simp [runTailReaders, h]

/-- C6 witness: on the concrete clients, an iterator failure produces only
the log line, shard B's fetch failure terminates its loop at once, and the
orchestrator result is the per-shard map (shard A's entry is untouched by
shard B's failure). -/
theorem c6_shard_failure_isolation_witness :
    tailStreamShard unmarshalW clientItFailW "s" "shardA"
        { atTimestamp := some 0 } 3 =
      ([Action.logError "denied"], LoopOutcome.failed "denied") ∧
    pollLoop unmarshalW clientW "shardB" (0 + 1) "shardB-it0" =
      ([Action.fetch "shardB-it0", Action.logError "boom"],
       LoopOutcome.failed "boom") ∧
    runTailReaders unmarshalW clientW "s" "" { atTimestamp := some 0 } 2 =
      Except.ok (["shardA", "shardB"].map fun sid =>
        (sid,
          tailStreamShard unmarshalW clientW "s" sid
            { atTimestamp := some 0 } 2)) :=
  ⟨(c6_shard_failure_isolation unmarshalW clientItFailW "s" "shardA" "x"
      { atTimestamp := some 0 } 3 "denied" []).1 rfl,
   (c6_shard_failure_isolation unmarshalW clientW "s" "shardB" "shardB-it0"
      { atTimestamp := some 0 } 0 "boom" []).2.1 rfl,
   (c6_shard_failure_isolation unmarshalW clientW "s" "shardB" "shardB-it0"
      { atTimestamp := some 0 } 2 "boom" ["shardA", "shardB"]).2.2 rfl⟩

/-- C7: when shard enumeration fails, `getShardIds` surfaces the service
error unchanged, and the orchestrator (run without a pinned shard) spawns
no reader and produces no events — its result is that same error, which
models printing it and exiting with status 1. -/
theorem c7_enumeration_failure (unmarshal : List Nat → Option JsonVal)
    (client : KinesisClient) (streamName : String) (options : TailOptions)
    (fuel : Nat) (e : String)
    (hls : client.listShardsCall streamName = Except.error e) :
    getShardIds client streamName = Except.error e ∧
    runTailReaders unmarshal client streamName "" options fuel =
      Except.error e := by
  refine ⟨?_, ?_⟩
  · simp [getShardIds, hls]
  · simp [runTailReaders, getShardIds, hls]

/-- C7 witness: the concrete list-shards-failing client aborts the whole
run with the enumeration error. -/
theorem c7_enumeration_failure_witness :
    getShardIds clientListFailW "s" = Except.error "list failed" ∧
    runTailReaders unmarshalW clientListFailW "s" ""
        { atTimestamp := some 0 } 2 =
      Except.error "list failed" :=
  c7_enumeration_failure unmarshalW clientListFailW "s"
    { atTimestamp := some 0 } 2 "list failed" rfl

end Kin
